import Mathlib

/-!
Verification of the PNGme chunk codec (src/chunk_type.rs, src/chunk.rs).

Bytes (Rust u8) are modelled as Nat; nothing in the code performs u8
arithmetic that could wrap, so the only place a width matters is the
u32 length field, where the cast is modelled by an explicit % 2^32.
Fallible Rust functions (returning Result) are modelled with Except;
a Rust panic (out-of-bounds slice index) is a distinct constructor of
a dedicated result type, since it is not a typed error.
-/

/-- Rust u8.is_ascii_uppercase: b is in the range b'A'..=b'Z'. -/
def is_ascii_uppercase (b : Nat) : Bool :=
  65 ≤ b && b ≤ 90

/-- Rust u8.is_ascii_lowercase: b is in the range b'a'..=b'z'. -/
def is_ascii_lowercase (b : Nat) : Bool :=
  97 ≤ b && b ≤ 122

/-- Rust u8.is_ascii_alphabetic: uppercase or lowercase ASCII letter. -/
def is_ascii_alphabetic (b : Nat) : Bool :=
  is_ascii_uppercase b || is_ascii_lowercase b

/-- Rust u8.is_ascii: b ≤ 127. -/
def is_ascii (b : Nat) : Bool :=
  b ≤ 127

/-- struct ChunkType (src/chunk_type.rs): four u8 fields, one per byte of
the 4-byte type code, in on-wire order. -/
structure ChunkType where
  ancillary : Nat
  «private» : Nat
  reserved : Nat
  safe_to_copy : Nat
deriving DecidableEq, Repr

/-- ChunkType::bytes: the 4 bytes in order. -/
def ChunkType.bytes (c : ChunkType) : List Nat :=
  [c.ancillary, c.«private», c.reserved, c.safe_to_copy]

/-- ChunkType::is_valid (src/chunk_type.rs lines 26-35). -/
def ChunkType.is_valid (c : ChunkType) : Bool :=
  is_ascii_uppercase c.reserved && is_ascii c.ancillary
    && is_ascii c.«private» && is_ascii c.safe_to_copy

/-- ChunkType::is_critical: byte 0 is ASCII uppercase. -/
def ChunkType.is_critical (c : ChunkType) : Bool :=
  is_ascii_uppercase c.ancillary

/-- ChunkType::is_public: byte 1 is ASCII uppercase. -/
def ChunkType.is_public (c : ChunkType) : Bool :=
  is_ascii_uppercase c.«private»

/-- ChunkType::is_reserved_bit_valid: byte 2 is ASCII uppercase. -/
def ChunkType.is_reserved_bit_valid (c : ChunkType) : Bool :=
  is_ascii_uppercase c.reserved

/-- ChunkType::is_safe_to_copy (src/chunk_type.rs lines 59-64): returns
false when byte 3 is ASCII uppercase, true otherwise. -/
def ChunkType.is_safe_to_copy (c : ChunkType) : Bool :=
  !is_ascii_uppercase c.safe_to_copy

/-- ChunkType::is_valid_byte: the byte is ASCII alphabetic. -/
def ChunkType.is_valid_byte (byte : Nat) : Bool :=
  is_ascii_alphabetic byte

/-- TryFrom for ChunkType (src/chunk_type.rs lines 75-90): takes the
four bytes of a [u8; 4]; errors with "Invalid Byte" when byte 2 is not
ASCII uppercase, otherwise stores the four bytes as given. -/
def ChunkType.try_from (b0 b1 b2 b3 : Nat) : Except String ChunkType :=
  if !is_ascii_uppercase b2 then
    .error "Invalid Byte"
  else
    .ok ⟨b0, b1, b2, b3⟩

/-- Result of a Rust function that can return Ok, return a typed Err, or
panic (e.g. an out-of-bounds slice index). -/
inductive StrResult (α : Type) where
  | ok (a : α)
  | error (e : String)
  | panicked
deriving DecidableEq, Repr

/-- FromStr for ChunkType (src/chunk_type.rs lines 102-121). The input
string is modelled by its UTF-8 bytes (s.as_bytes()). The loop rejects
any byte that is not ASCII alphabetic; then bytes[0]..bytes[3] are
indexed with no length check, which panics when fewer than 4 bytes are
present, and silently ignores bytes past the fourth. -/
def ChunkType.from_str (s : List Nat) : StrResult ChunkType :=
  if !s.all is_ascii_alphabetic then
    .error "Invalid Byte"
  else
    match s with
    | b0 :: b1 :: b2 :: b3 :: _ => .ok ⟨b0, b1, b2, b3⟩
    | _ => .panicked

/-- Display for ChunkType (src/chunk_type.rs lines 92-100): formats the
four u8 fields with "{}, {}, {}, {}", i.e. each byte is rendered as its
decimal numeral, the four numerals joined by ", ". -/
def ChunkType.display (c : ChunkType) : String :=
  toString c.ancillary ++ ", " ++ toString c.«private» ++ ", "
    ++ toString c.reserved ++ ", " ++ toString c.safe_to_copy

/-- One bit step of the reflected CRC-32 used by the crc crate's
CRC_32_ISO_HDLC (the zlib/PNG variant: reflected polynomial
0xEDB88320): shift right one bit, folding in the polynomial when the
low bit was set. -/
def crc32_step (c : Nat) : Nat :=
  if c % 2 = 1 then Nat.xor (c / 2) 0xEDB88320 else c / 2

/-- Eight crc32_step iterations: one input byte fully absorbed. -/
def crc32_bits : Nat → Nat → Nat
  | 0, c => c
  | n + 1, c => crc32_bits n (crc32_step c)

/-- Absorb one byte: xor it into the low bits, then run 8 bit steps. -/
def crc32_byte (c b : Nat) : Nat :=
  crc32_bits 8 (Nat.xor c b)

/-- CRC-32 / ISO-HDLC of a byte sequence, as computed by
Crc::<u32>::new(&CRC_32_ISO_HDLC).checksum: init 0xFFFFFFFF, reflected
in/out, final xor 0xFFFFFFFF. -/
def crc32 (data : List Nat) : Nat :=
  Nat.xor (data.foldl crc32_byte 0xFFFFFFFF) 0xFFFFFFFF

/-- const MAXIMUM_LENGTH: u32 = (1 << 31) - 1 (src/chunk.rs line 9). -/
def MAXIMUM_LENGTH : Nat := 2 ^ 31 - 1

/-- struct Chunk (src/chunk.rs lines 11-14): a ChunkType and the payload
bytes. -/
structure Chunk where
  chunk_type : ChunkType
  chunk_data : List Nat
deriving DecidableEq, Repr

/-- Chunk::new: stores the given type and data. -/
def Chunk.new (chunk_type : ChunkType) (chunk_data : List Nat) : Chunk :=
  ⟨chunk_type, chunk_data⟩

/-- Chunk::length (src/chunk.rs lines 34-36): self.chunk_data.len() as
u32; the usize-to-u32 cast truncates modulo 2^32. -/
def Chunk.length (c : Chunk) : Nat :=
  c.chunk_data.length % 2 ^ 32

/-- Chunk::data: the payload bytes. -/
def Chunk.data (c : Chunk) : List Nat :=
  c.chunk_data

/-- Chunk::crc (src/chunk.rs lines 46-58): CRC-32 ISO-HDLC over the 4
type-code bytes chained with the payload bytes. -/
def Chunk.crc (c : Chunk) : Nat :=
  crc32 (c.chunk_type.bytes ++ c.chunk_data)

/-- u32::to_be_bytes: the 4 bytes of n (n < 2^32), most significant
first. -/
def u32_to_be_bytes (n : Nat) : List Nat :=
  [n / 2 ^ 24 % 256, n / 2 ^ 16 % 256, n / 2 ^ 8 % 256, n % 256]

/-- u32::from_be_bytes on the 4 bytes of the buffer, most significant
first. -/
def u32_from_be_bytes (b0 b1 b2 b3 : Nat) : Nat :=
  b0 * 2 ^ 24 + b1 * 2 ^ 16 + b2 * 2 ^ 8 + b3

/-- Chunk::as_bytes (src/chunk.rs lines 64-73): big-endian length bytes,
then type-code bytes, then payload, then big-endian crc bytes. -/
def Chunk.as_bytes (c : Chunk) : List Nat :=
  u32_to_be_bytes c.length ++ c.chunk_type.bytes ++ c.chunk_data
    ++ u32_to_be_bytes c.crc

/-- The typed failures of TryFrom for Chunk. The Rust code boxes them
all into crate::Error; the constructors record which failure site
produced the error. eof models the io::Error a read_exact returns when
the reader has fewer bytes than requested; length_exceeded and
wrong_length are the two ChunkDecodingError sites; invalid_byte is the
error propagated from ChunkType::try_from. -/
inductive ChunkError where
  | eof
  | length_exceeded
  | invalid_byte
  | wrong_length
deriving DecidableEq, Repr

/-- TryFrom for Chunk (src/chunk.rs lines 86-114). Reads, in order:
4 length bytes (big-endian u32, rejected above MAXIMUM_LENGTH), 4
type-code bytes (through ChunkType::try_from), exactly length payload
bytes, and 4 checksum bytes. The checksum bytes are read into the
scratch buffer and never compared to anything; the wrong_length branch
compares the payload buffer length read by read_exact against the
declared length (read_exact guarantees they match, so the branch is
dead); any read past the end of the input fails with the reader's
eof error. The usize::try_from(length) conversion always succeeds on a
64-bit target and is not modelled as fallible. -/
def Chunk.try_from (bytes : List Nat) : Except ChunkError Chunk :=
  match bytes with
  | l0 :: l1 :: l2 :: l3 :: rest =>
    let length := u32_from_be_bytes l0 l1 l2 l3
    if length > MAXIMUM_LENGTH then
      .error .length_exceeded
    else
      match rest with
      | t0 :: t1 :: t2 :: t3 :: rest2 =>
        match ChunkType.try_from t0 t1 t2 t3 with
        | .error _ => .error .invalid_byte
        | .ok chunk_type =>
          if rest2.length < length then
            .error .eof
          else
            let chunk_data := rest2.take length
            if chunk_data.length ≠ length then
              .error .wrong_length
            else
              match rest2.drop length with
              | _ :: _ :: _ :: _ :: _ => .ok ⟨chunk_type, chunk_data⟩
              | _ => .error .eof
      | _ => .error .eof
  | _ => .error .eof

instance {ε α : Type} [DecidableEq ε] [DecidableEq α] : DecidableEq (Except ε α) :=
  fun a b =>
    match a, b with
    | .ok x, .ok y =>
      if h : x = y then .isTrue (by rw [h]) else .isFalse (fun e => by cases e; exact h rfl)
    | .error x, .error y =>
      if h : x = y then .isTrue (by rw [h]) else .isFalse (fun e => by cases e; exact h rfl)
    | .ok _, .error _ => .isFalse (fun e => by cases e)
    | .error _, .ok _ => .isFalse (fun e => by cases e)

/-- The UTF-8 bytes of "This is where your secret message will be!", the
42-byte payload used by the tests in src/chunk.rs. -/
def secret_message : List Nat :=
  [84, 104, 105, 115, 32, 105, 115, 32, 119, 104, 101, 114, 101, 32, 121, 111,
   117, 114, 32, 115, 101, 99, 114, 101, 116, 32, 109, 101, 115, 115, 97, 103,
   101, 32, 119, 105, 108, 108, 32, 98, 101, 33]

/-- The buffer built by test_invalid_chunk_from_bytes in src/chunk.rs:
length 42 big-endian, type-code bytes of "RuSt", the 42-byte message,
and the deliberately wrong checksum 2882656333 big-endian
(the correct checksum is 2882656334). -/
def bad_crc_buffer : List Nat :=
  [0, 0, 0, 42] ++ [82, 117, 83, 116] ++ secret_message ++ [171, 209, 216, 77]

set_option maxRecDepth 100000

/-- Reading back the 4 big-endian bytes of a u32 recovers the value. -/
theorem u32_be_round (n : Nat) (h : n < 2 ^ 32) :
    u32_from_be_bytes (n / 2 ^ 24 % 256) (n / 2 ^ 16 % 256) (n / 2 ^ 8 % 256) (n % 256)
      = n := by
  unfold u32_from_be_bytes
  omega

/-- Successful run of TryFrom for Chunk on a buffer whose declared
length is in bound, whose third type-code byte is uppercase, and whose
tail holds at least the declared payload plus 4 checksum bytes. -/
theorem Chunk.try_from_append (l0 l1 l2 l3 t0 t1 t2 t3 : Nat) (rest : List Nat)
    (hL : u32_from_be_bytes l0 l1 l2 l3 ≤ MAXIMUM_LENGTH)
    (ht : is_ascii_uppercase t2 = true)
    (hlen : u32_from_be_bytes l0 l1 l2 l3 + 4 ≤ rest.length) :
    Chunk.try_from (l0 :: l1 :: l2 :: l3 :: t0 :: t1 :: t2 :: t3 :: rest)
      = .ok ⟨⟨t0, t1, t2, t3⟩, rest.take (u32_from_be_bytes l0 l1 l2 l3)⟩ := by
  have hnot : ¬ u32_from_be_bytes l0 l1 l2 l3 > MAXIMUM_LENGTH := by omega
  have hty : ChunkType.try_from t0 t1 t2 t3 = .ok ⟨t0, t1, t2, t3⟩ := by
    simp [ChunkType.try_from, ht]
  have hge : ¬ rest.length < u32_from_be_bytes l0 l1 l2 l3 := by omega
  have htake : (rest.take (u32_from_be_bytes l0 l1 l2 l3)).length
      = u32_from_be_bytes l0 l1 l2 l3 := by
    simp [List.length_take]
    omega
  have hdroplen : 4 ≤ (rest.drop (u32_from_be_bytes l0 l1 l2 l3)).length := by
    simp [List.length_drop]
    omega
  rcases hd : rest.drop (u32_from_be_bytes l0 l1 l2 l3) with
      _ | ⟨c0, _ | ⟨c1, _ | ⟨c2, _ | ⟨c3, r⟩⟩⟩⟩ <;>
    rw [hd] at hdroplen <;> simp at hdroplen
  simp [Chunk.try_from, hnot, hty, hge, htake, hd]

/-- C1: the code accepts the buffer from test_invalid_chunk_from_bytes,
whose trailing 4 bytes declare checksum 2882656333 while the checksum
recomputed over type+payload is 2882656334: TryFrom for Chunk returns
Ok instead of the CrcMismatch failure the claim (and the repository's
own test) requires, because the checksum bytes are read but never
compared. -/
theorem c1_crc_mismatch_accepted :
    Chunk.try_from bad_crc_buffer = .ok (Chunk.new ⟨82, 117, 83, 116⟩ secret_message)
      ∧ Chunk.crc (Chunk.new ⟨82, 117, 83, 116⟩ secret_message) = 2882656334
      ∧ bad_crc_buffer.drop 50 = [171, 209, 216, 77]
      ∧ u32_from_be_bytes 171 209 216 77 = 2882656333 := by
  refine ⟨?_, ?_, ?_, ?_⟩
  · rfl
  · decide
  · decide
  · decide

/-- C3 counterexample: constructing a TypeCode from the raw bytes
[82, 117, 115, 116] ("Rust": byte 2 is lowercase) fails with
"Invalid Byte", and chunk parsing rejects a buffer carrying those 4
type-code bytes, contradicting the claim that raw 4-byte construction
always succeeds and that parsing never rejects a buffer because of its
type-code bytes. -/
theorem c3_raw_construction_rejects :
    ChunkType.try_from 82 117 115 116 = .error "Invalid Byte"
      ∧ Chunk.try_from [0, 0, 0, 0, 82, 117, 115, 116, 0, 0, 0, 0]
          = .error .invalid_byte := by
  exact ⟨rfl, rfl⟩

/-- C3 amended: constructing a TypeCode from 4 raw bytes succeeds iff
byte 2 is ASCII uppercase (no validation is performed on bytes 0, 1
and 3, and on success the 4 bytes are stored as given), and chunk
parsing propagates the failure whenever byte 2 of the type-code field
is not uppercase and the declared length is in bound. -/
theorem c3_raw_construction_checks_reserved_byte (b0 b1 b2 b3 : Nat) :
    ChunkType.try_from b0 b1 b2 b3
        = (if is_ascii_uppercase b2 = true then .ok ⟨b0, b1, b2, b3⟩
           else .error "Invalid Byte")
      ∧ (is_ascii_uppercase b2 = false →
          ∀ (l0 l1 l2 l3 : Nat) (rest : List Nat),
            u32_from_be_bytes l0 l1 l2 l3 ≤ MAXIMUM_LENGTH →
            Chunk.try_from (l0 :: l1 :: l2 :: l3 :: b0 :: b1 :: b2 :: b3 :: rest)
              = .error .invalid_byte) := by
  constructor
  · cases h : is_ascii_uppercase b2 <;> simp [ChunkType.try_from, h]
  · intro h l0 l1 l2 l3 rest hL
    have hnot : ¬ u32_from_be_bytes l0 l1 l2 l3 > MAXIMUM_LENGTH := by omega
    simp [Chunk.try_from, ChunkType.try_from, hnot, h]

/-- C3 amended witness at the concrete bytes [82, 117, 115, 116]
("Rust", lowercase byte 2): construction errors and a concrete in-bound
buffer carrying those type-code bytes is rejected. -/
theorem c3_raw_construction_checks_reserved_byte_witness :
    ChunkType.try_from 82 117 115 116
        = (if is_ascii_uppercase 115 = true then .ok ⟨82, 117, 115, 116⟩
           else .error "Invalid Byte")
      ∧ Chunk.try_from [0, 0, 0, 5, 82, 117, 115, 116] = .error .invalid_byte :=
  ⟨(c3_raw_construction_checks_reserved_byte 82 117 115 116).1,
   (c3_raw_construction_checks_reserved_byte 82 117 115 116).2 (by decide)
     0 0 0 5 [] (by decide)⟩

/-- C4: the Display implementation renders the four bytes as decimal
numerals joined by ", ", so parsing "RuSt" and rendering yields
"82, 117, 83, 116", not "RuSt"; the repository's own test
test_chunk_type_string expects "RuSt". -/
theorem c4_display_renders_decimal :
    ChunkType.from_str [82, 117, 83, 116] = .ok ⟨82, 117, 83, 116⟩
      ∧ ChunkType.display ⟨82, 117, 83, 116⟩ = "82, 117, 83, 116"
      ∧ ChunkType.display ⟨82, 117, 83, 116⟩ ≠ "RuSt" := by
  refine ⟨rfl, rfl, ?_⟩
  decide

/-- C5: FromStr for ChunkType performs no length check before indexing
bytes[0]..bytes[3]: on the 2-byte all-alphabetic input "ab" it panics
(index out of bounds) instead of returning a typed error, on the empty
input it panics, and on the 5-byte input "abcde" it succeeds storing
the first 4 bytes instead of rejecting the length. -/
theorem c5_from_str_skips_length_check :
    ChunkType.from_str [97, 98] = .panicked
      ∧ ChunkType.from_str [] = .panicked
      ∧ ChunkType.from_str [97, 98, 99, 100, 101] = .ok ⟨97, 98, 99, 100⟩ := by
  exact ⟨rfl, rfl, rfl⟩

/-- C6 counterexample: the TypeCode with bytes [82, 117, 83, 49]
("RuS1") is constructible through raw-byte construction, its
is_safe_to_copy is true, yet its byte 3 (49, the digit 1) is not ASCII
lowercase — contradicting the claim that is_safe_to_copy is true iff
byte 3 is ASCII lowercase. -/
theorem c6_safe_to_copy_not_lowercase :
    ChunkType.try_from 82 117 83 49 = .ok ⟨82, 117, 83, 49⟩
      ∧ ChunkType.is_safe_to_copy ⟨82, 117, 83, 49⟩ = true
      ∧ is_ascii_lowercase 49 = false := by
  exact ⟨rfl, rfl, rfl⟩

/-- C6 amended: is_critical, is_public and is_reserved_bit_valid are
true iff bytes 0, 1, 2 respectively are ASCII uppercase (in the range
65..90), and is_safe_to_copy is true iff byte 3 is NOT ASCII uppercase
(below 65 or above 90) — which coincides with "lowercase" only on
alphabetic bytes. -/
theorem c6_flag_accessors (c : ChunkType) :
    (c.is_critical = true ↔ 65 ≤ c.ancillary ∧ c.ancillary ≤ 90)
      ∧ (c.is_public = true ↔ 65 ≤ c.«private» ∧ c.«private» ≤ 90)
      ∧ (c.is_reserved_bit_valid = true ↔ 65 ≤ c.reserved ∧ c.reserved ≤ 90)
      ∧ (c.is_safe_to_copy = true ↔ c.safe_to_copy < 65 ∨ 90 < c.safe_to_copy) := by
  refine ⟨?_, ?_, ?_, ?_⟩ <;>
    simp [ChunkType.is_critical, ChunkType.is_public, ChunkType.is_reserved_bit_valid,
      ChunkType.is_safe_to_copy, is_ascii_uppercase, Bool.and_eq_true,
      decide_eq_true_iff]

/-- C7: Chunk::crc computes CRC-32 ISO-HDLC over the 4 type-code bytes
followed by the payload (the length field is never part of the input),
and on the fixture type "RuSt" with the 42-byte secret message it
evaluates to exactly 2882656334. -/
theorem c7_checksum_crc32 :
    (∀ c : Chunk, c.crc = crc32 (c.chunk_type.bytes ++ c.chunk_data))
      ∧ Chunk.crc (Chunk.new ⟨82, 117, 83, 116⟩ secret_message) = 2882656334 := by
  constructor
  · intro c
    rfl
  · decide

/-- C2 counterexample: the TypeCode "Rust" (bytes [82, 117, 115, 116],
byte 2 lowercase) is constructible through FromStr, yet deserializing
the serialization of Chunk("Rust", []) fails with the type-code error
rather than round-tripping, because TryFrom for ChunkType rejects a
non-uppercase byte 2 during parsing. -/
theorem c2_round_trip_fails_for_lowercase_reserved :
    ChunkType.from_str [82, 117, 115, 116] = .ok ⟨82, 117, 115, 116⟩
      ∧ Chunk.try_from (Chunk.as_bytes (Chunk.new ⟨82, 117, 115, 116⟩ []))
          = .error .invalid_byte :=
  ⟨rfl, rfl⟩

/-- C2 amended: for every TypeCode whose byte 2 is ASCII uppercase and
every payload of at most 2^31 - 1 bytes, deserializing the
serialization yields back a chunk with the same type code and the same
payload. -/
theorem c2_round_trip (t : ChunkType) (d : List Nat)
    (ht : is_ascii_uppercase t.reserved = true)
    (hd : d.length ≤ 2 ^ 31 - 1) :
    Chunk.try_from (Chunk.as_bytes (Chunk.new t d)) = .ok (Chunk.new t d) := by
  obtain ⟨t0, t1, t2, t3⟩ := t
  have hlen32 : d.length < 2 ^ 32 := by omega
  have hmod : d.length % 2 ^ 32 = d.length := Nat.mod_eq_of_lt hlen32
  have hbe := u32_be_round d.length hlen32
  have hab : Chunk.as_bytes (Chunk.new ⟨t0, t1, t2, t3⟩ d)
      = (d.length / 2 ^ 24 % 256) :: (d.length / 2 ^ 16 % 256) :: (d.length / 2 ^ 8 % 256)
        :: (d.length % 256) :: t0 :: t1 :: t2 :: t3
        :: (d ++ u32_to_be_bytes (Chunk.crc (Chunk.new ⟨t0, t1, t2, t3⟩ d))) := by
    simp [Chunk.as_bytes, Chunk.new, Chunk.length, ChunkType.bytes, u32_to_be_bytes]
    omega
  rw [hab]
  rw [Chunk.try_from_append (d.length / 2 ^ 24 % 256) (d.length / 2 ^ 16 % 256)
      (d.length / 2 ^ 8 % 256) (d.length % 256) t0 t1 t2 t3
      (d ++ u32_to_be_bytes (Chunk.crc (Chunk.new ⟨t0, t1, t2, t3⟩ d)))
      (by rw [hbe]; simpa [MAXIMUM_LENGTH] using hd)
      ht
      (by rw [hbe]; simp [u32_to_be_bytes])]
  rw [hbe]
  rw [show (d ++ u32_to_be_bytes (Chunk.crc (Chunk.new ⟨t0, t1, t2, t3⟩ d))).take d.length = d
      from List.take_left _ _]
  rfl

/-- C2 amended witness: the round trip at the concrete TypeCode "RuSt"
with payload [1, 2, 3]. -/
theorem c2_round_trip_witness :
    Chunk.try_from (Chunk.as_bytes (Chunk.new ⟨82, 117, 83, 116⟩ [1, 2, 3]))
      = .ok (Chunk.new ⟨82, 117, 83, 116⟩ [1, 2, 3]) :=
  c2_round_trip ⟨82, 117, 83, 116⟩ [1, 2, 3] (by decide) (by decide)

/-- C8: serialization lays out exactly length (4 bytes, the payload
byte count as a big-endian u32), type code (4 bytes), payload, and crc
(4 bytes big-endian), for a total of payload-length + 12 bytes. -/
theorem c8_as_bytes_layout (c : Chunk) :
    c.as_bytes.length = c.chunk_data.length + 12
      ∧ c.as_bytes.take 4 = u32_to_be_bytes (c.chunk_data.length % 2 ^ 32)
      ∧ (c.as_bytes.drop 4).take 4 = c.chunk_type.bytes
      ∧ (c.as_bytes.drop 8).take c.chunk_data.length = c.chunk_data
      ∧ c.as_bytes.drop (8 + c.chunk_data.length) = u32_to_be_bytes c.crc := by
  obtain ⟨t, d⟩ := c
  refine ⟨?_, rfl, rfl, ?_, ?_⟩
  · simp [Chunk.as_bytes, u32_to_be_bytes, ChunkType.bytes]
  · show (d ++ u32_to_be_bytes (Chunk.crc ⟨t, d⟩)).take d.length = d
    exact List.take_left _ _
  · have hsplit : ({ chunk_type := t, chunk_data := d } : Chunk).as_bytes.drop (8 + d.length)
        = (({ chunk_type := t, chunk_data := d } : Chunk).as_bytes.drop 8).drop d.length := by
      rw [List.drop_drop]
    rw [hsplit]
    show (d ++ u32_to_be_bytes (Chunk.crc ⟨t, d⟩)).drop d.length
      = u32_to_be_bytes (Chunk.crc ⟨t, d⟩)
    exact List.drop_left _ _

/-- C9: on any buffer holding at least the 4 length bytes, parsing
fails with the length-exceeded error exactly when those bytes, read as
a big-endian u32, exceed 2^31 - 1; the check precedes every other read,
so it fires for every tail, including the empty one, and no in-bound
declared length ever produces that error. -/
theorem c9_length_exceeded_iff (l0 l1 l2 l3 : Nat) (rest : List Nat) :
    Chunk.try_from (l0 :: l1 :: l2 :: l3 :: rest) = .error .length_exceeded
      ↔ u32_from_be_bytes l0 l1 l2 l3 > MAXIMUM_LENGTH := by
  by_cases hL : u32_from_be_bytes l0 l1 l2 l3 > MAXIMUM_LENGTH
  · simp [Chunk.try_from, hL]
  · simp only [hL, iff_false]
    rcases rest with _ | ⟨t0, _ | ⟨t1, _ | ⟨t2, _ | ⟨t3, rest2⟩⟩⟩⟩ <;>
      simp [Chunk.try_from, hL]
    cases hty : ChunkType.try_from t0 t1 t2 t3 <;> simp [hty]
    repeat' split
    all_goals simp

/-- C9 witness: the oversized declared length 2^31 (bytes
[128, 0, 0, 0]) fails with the length-exceeded error on an otherwise
empty tail. -/
theorem c9_length_exceeded_witness :
    Chunk.try_from (128 :: 0 :: 0 :: 0 :: ([] : List Nat)) = .error .length_exceeded
      ↔ u32_from_be_bytes 128 0 0 0 > MAXIMUM_LENGTH :=
  c9_length_exceeded_iff 128 0 0 0 []

/-- C10: on a buffer whose in-bound declared length L leaves at least
L + 4 bytes after the 8 header bytes (so at least L + 12 bytes in all)
and whose third type-code byte passes the parser's type-code
construction, parsing succeeds with exactly the first L payload bytes,
and the outcome equals the outcome on the buffer truncated to its
first L + 12 bytes: trailing bytes are silently ignored. -/
theorem c10_parse_consumes_exactly (l0 l1 l2 l3 t0 t1 t2 t3 : Nat) (rest : List Nat)
    (hL : u32_from_be_bytes l0 l1 l2 l3 ≤ MAXIMUM_LENGTH)
    (ht : is_ascii_uppercase t2 = true)
    (hlen : u32_from_be_bytes l0 l1 l2 l3 + 4 ≤ rest.length) :
    Chunk.try_from (l0 :: l1 :: l2 :: l3 :: t0 :: t1 :: t2 :: t3 :: rest)
        = .ok ⟨⟨t0, t1, t2, t3⟩, rest.take (u32_from_be_bytes l0 l1 l2 l3)⟩
      ∧ Chunk.try_from (l0 :: l1 :: l2 :: l3 :: t0 :: t1 :: t2 :: t3 :: rest)
        = Chunk.try_from ((l0 :: l1 :: l2 :: l3 :: t0 :: t1 :: t2 :: t3 :: rest).take
            (u32_from_be_bytes l0 l1 l2 l3 + 12)) := by
  have h1 := Chunk.try_from_append l0 l1 l2 l3 t0 t1 t2 t3 rest hL ht hlen
  refine ⟨h1, ?_⟩
  have htk : (l0 :: l1 :: l2 :: l3 :: t0 :: t1 :: t2 :: t3 :: rest).take
        (u32_from_be_bytes l0 l1 l2 l3 + 12)
      = l0 :: l1 :: l2 :: l3 :: t0 :: t1 :: t2 :: t3
        :: rest.take (u32_from_be_bytes l0 l1 l2 l3 + 4) := by
    have e : u32_from_be_bytes l0 l1 l2 l3 + 12
        = ([l0, l1, l2, l3, t0, t1, t2, t3] : List Nat).length
          + (u32_from_be_bytes l0 l1 l2 l3 + 4) := by
      simp
      omega
    show ([l0, l1, l2, l3, t0, t1, t2, t3] ++ rest).take _ = _
    rw [e, List.take_append]
    rfl
  rw [htk, h1]
  rw [Chunk.try_from_append l0 l1 l2 l3 t0 t1 t2 t3
      (rest.take (u32_from_be_bytes l0 l1 l2 l3 + 4)) hL ht
      (by simp [List.length_take]; omega)]
  rw [List.take_take, Nat.min_eq_left (by omega)]

/-- C10 witness: a concrete buffer with declared length 1, type "RuSt",
payload [7], checksum field [0, 0, 0, 0] and two trailing junk bytes
parses to the chunk with payload [7], and parsing it equals parsing its
first 13 bytes. -/
theorem c10_parse_consumes_exactly_witness :
    Chunk.try_from [0, 0, 0, 1, 82, 117, 83, 116, 7, 0, 0, 0, 0, 99, 98]
        = .ok ⟨⟨82, 117, 83, 116⟩, [7]⟩
      ∧ Chunk.try_from [0, 0, 0, 1, 82, 117, 83, 116, 7, 0, 0, 0, 0, 99, 98]
        = Chunk.try_from ([0, 0, 0, 1, 82, 117, 83, 116, 7, 0, 0, 0, 0, 99, 98].take 13) :=
  c10_parse_consumes_exactly 0 0 0 1 82 117 83 116 [7, 0, 0, 0, 0, 99, 98]
    (by decide) (by decide) (by decide)
